import Mathlib

/-!
Verification of the `lytics/gobyairship` Urban Airship client library.

The development shallowly embeds the Go source:

* `Gobyairship` — the HTTP transport (`client.go`): `Client`, `newRequest`,
  and the `Post` redirect+cookie loop.
* `Events` — the events package (`events/request.go`, `events/response.go`):
  request/subset validation, `Fetch`, the `Response` stream handle with its
  `Close` latch, and JSON serialization of `Filter`.

Machine integers are modelled as `Nat`/`Int` (no arithmetic in the claims
overflows), Go `nil` pointers as `Option`, and Go's zero-valued
`chan struct` as an explicit channel state.
-/

namespace Gobyairship

/-- The headers of an HTTP response, as read by `Client.Post` through
`resp.Header.Get`: Go's `Header.Get` returns `""` for an absent header, so
absent `Location`/`Set-Cookie` are the empty string here. -/
structure Resp where
  status : Nat
  location : String
  setCookie : String
  deriving Repr, DecidableEq

/-- An outgoing HTTP request as assembled by `Client.newRequest` (plus the
`Cookie` header added inside the redirect loop, and the `Accept-Encoding`
header added by Go's `net/http` transport). `body = none` models the
`len(buf) > 0` guard being false. -/
structure Req where
  method : String
  url : String
  authorization : String
  accept : String
  acceptEncoding : Option String
  contentType : Option String
  cookie : Option String
  body : Option String
  deriving Repr, DecidableEq

/-- The standard base64 alphabet used by Go's `encoding/base64.StdEncoding`,
which `http.Request.SetBasicAuth` uses for the `Authorization` header. -/
def base64Alphabet : List Char :=
  [ 'A', 'B', 'C', 'D', 'E', 'F', 'G', 'H', 'I', 'J', 'K', 'L', 'M',
    'N', 'O', 'P', 'Q', 'R', 'S', 'T', 'U', 'V', 'W', 'X', 'Y', 'Z',
    'a', 'b', 'c', 'd', 'e', 'f', 'g', 'h', 'i', 'j', 'k', 'l', 'm',
    'n', 'o', 'p', 'q', 'r', 's', 't', 'u', 'v', 'w', 'x', 'y', 'z',
    '0', '1', '2', '3', '4', '5', '6', '7', '8', '9', '+', '/' ]

def b64Char (n : Nat) : Char := base64Alphabet.getD n 'A'

/-- Base64 (RFC 4648) encoding of a byte sequence, bytes as `Nat < 256`. -/
def base64Encode : List Nat → String
  | [] => ""
  | [a] =>
      String.mk [b64Char (a / 4), b64Char (a % 4 * 16), '=', '=']
  | [a, b] =>
      String.mk [b64Char (a / 4), b64Char (a % 4 * 16 + b / 16),
                 b64Char (b % 16 * 4), '=']
  | a :: b :: c :: rest =>
      String.mk [b64Char (a / 4), b64Char (a % 4 * 16 + b / 16),
                 b64Char (b % 16 * 4 + c / 64), b64Char (c % 64)]
        ++ base64Encode rest

/-- The bytes of an ASCII credential string (Go strings are byte slices). -/
def strBytes (s : String) : List Nat := s.toList.map Char.toNat

/-- The fixed `Accept` header set by `Client.newRequest`. -/
def acceptHeader : String :=
  "application/vnd.urbanairship+x-json,application/vnd.urbanairship+x-ndjson;version=3;"

/-- `gobyairship.Client`: base URL plus the Basic-auth credential pair. -/
structure Client where
  baseURL : String
  key : String
  secret : String

/-- `http.Request.SetBasicAuth`: `Authorization: Basic base64(key ":" secret)`. -/
def Client.basicAuth (c : Client) : String :=
  "Basic " ++ base64Encode (strBytes (c.key ++ ":" ++ c.secret))

/-- `Client.newRequest`: sets Basic auth and the Accept header, and when
`len(buf) > 0` attaches the body and sets `Content-Type: application/json`.
It sets no `Cookie` and no `Accept-Encoding` header itself. -/
def Client.newRequest (c : Client) (method url : String) (buf : String) : Req :=
  { method := method
    url := url
    authorization := c.basicAuth
    accept := acceptHeader
    acceptEncoding := none
    contentType := if buf = "" then none else some "application/json"
    cookie := none
    body := if buf = "" then none else some buf }

/-- Go's `net/http.Transport` (with default `DisableCompression = false`)
adds `Accept-Encoding: gzip` to an outgoing request that does not already
carry one, and transparently decompresses the response. `Client.Post` never
sets the header itself, so every request of this library goes out through
this wrapper. -/
def wireRequest (r : Req) : Req :=
  match r.acceptEncoding with
  | none => { r with acceptEncoding := some "gzip" }
  | some _ => r

/-- The errors `Client.Post` can return: an error from `HTTPClient.Do` on
the `i`-th request, or `ErrTooManyRedirects`. -/
inductive PostError where
  | transport (i : Nat)
  | tooManyRedirects
  deriving Repr, DecidableEq

/-- The `(*http.Response, error)` pair returned by `Client.Post`: `ok r`
is `(resp, nil)`, `err e` is `(nil, e)`. -/
inductive PostResult where
  | ok (r : Resp)
  | err (e : PostError)
  deriving Repr, DecidableEq

/-- The observable outcome of one `Client.Post` call: the returned
`(*http.Response, error)` pair, the requests issued through
`HTTPClient.Do` in order, and the response bodies that were drained
(`ioutil.ReadAll`) and closed, in order. -/
structure PostOutcome where
  result : PostResult
  reqs : List Req
  drained : List Resp
  deriving Repr, DecidableEq

/-- The `Set-Cookie` echo of the redirect loop: the raw `Set-Cookie` value
of a response becomes the next request's `Cookie` header when non-empty. -/
def cookieOf (r : Resp) : Option String :=
  if r.setCookie = "" then none else some r.setCookie

/-- `strings.HasPrefix(s, pre)`, computed over the character lists. -/
def strStartsWith (s pre : String) : Bool :=
  pre.toList.isPrefixOf s.toList

/-- The `Location` resolution of the redirect loop: an empty (absent)
`Location` falls back to the original `fullURL`; a value not starting with
`"http"` is prefixed with `BaseURL`; otherwise the value is used wholesale. -/
def resolveLocation (c : Client) (fullURL : String) (r : Resp) : String :=
  if r.location = "" then fullURL
  else if strStartsWith r.location "http" then r.location
  else c.baseURL ++ r.location

/-- The request the redirect loop builds after seeing the 307 response
`r`: `newRequest` at the resolved location, with `Cookie` added when the
response carried `Set-Cookie`. -/
def redirectReq (c : Client) (fullURL buf : String) (r : Resp) : Req :=
  { c.newRequest "POST" (resolveLocation c fullURL r) buf with cookie := cookieOf r }

/-- The `for ; resp.StatusCode == 307 && try < tries; try++` loop of
`Client.Post`, followed by the `if try == tries` check. `fuel` is
`tries - try` (so `fuel = 0` means `try == tries`, where Post drains the
body and fails with `ErrTooManyRedirects` regardless of the final status);
`idx` numbers the next `HTTPClient.Do` call and `env idx` is its result
(`none` models a transport error from `Do`). -/
def postLoop (c : Client) (fullURL buf : String) (env : Nat → Option Resp) :
    Nat → Nat → Resp → PostOutcome
  | 0, _, resp =>
      { result := .err .tooManyRedirects, reqs := [], drained := [resp] }
  | fuel + 1, idx, resp =>
      if resp.status = 307 then
        let req := redirectReq c fullURL buf resp
        match env idx with
        | none =>
            { result := .err (.transport idx), reqs := [req], drained := [resp] }
        | some resp2 =>
            let rest := postLoop c fullURL buf env fuel (idx + 1) resp2
            { result := rest.result, reqs := req :: rest.reqs,
              drained := resp :: rest.drained }
      else
        { result := .ok resp, reqs := [], drained := [] }

/-- `Client.Post url body`, with the JSON-marshalled body given as `buf`
(`""` for a `nil` body, as `json.Marshal` never yields an empty encoding)
and the network modelled by `env`. Builds `fullURL = BaseURL + "/" + url +
"/"`, issues the initial POST, then runs the redirect loop with
`tries = 10`. -/
def Client.Post (c : Client) (url buf : String) (env : Nat → Option Resp) :
    PostOutcome :=
  let fullURL := c.baseURL ++ "/" ++ url ++ "/"
  let req0 := c.newRequest "POST" fullURL buf
  match env 0 with
  | none => { result := .err (.transport 0), reqs := [req0], drained := [] }
  | some resp0 =>
      let rest := postLoop c fullURL buf env 10 1 resp0
      { result := rest.result, reqs := req0 :: rest.reqs, drained := rest.drained }

end Gobyairship

namespace Events

/-- The validation errors of `events/request.go`, one constructor per
distinct error the Go code builds; errors carrying a formatted integer
keep it as an argument. -/
inductive ValErr where
  | startAndOffset
  | partitionFieldsMissing
  | countLtOne
  | selectionOutOfRange (count : Int)
  | proportionSetForPartition
  | proportionMissing
  | proportionOutOfRange (p : ℚ)
  | countOrSelectionSetForSample
  | invalidSubsetType (t : String)
  deriving Repr, DecidableEq

/-- `events.Subset`: `Type` is the `SubsetType` string (`""` when
default-constructed); the three pointer fields are `Option`s. Go's
`float64` proportion is modelled as `ℚ`: `Subset.Validate` only compares
it (no arithmetic), and comparison of finite floats agrees with the
rational order. -/
structure Subset where
  type : String
  proportion : Option ℚ
  count : Option Int
  selection : Option Int
  deriving Repr, DecidableEq

/-- `events.SubsetPartition(count, selection)`. -/
def SubsetPartition (count selection : Int) : Option Subset :=
  some { type := "PARTITION", proportion := none,
         count := some count, selection := some selection }

/-- `events.SubsetSample(proportion)`. -/
def SubsetSample (proportion : ℚ) : Option Subset :=
  some { type := "SAMPLE", proportion := some proportion,
         count := none, selection := none }

/-- `(*Subset).Validate`: `nil` receiver is valid; `PARTITION` requires
`count`/`selection` set, `count ≥ 1`, `0 ≤ selection < count`, and no
proportion; `SAMPLE` requires `proportion` set, `0 ≤ proportion ≤ 1`, and
no count/selection; any other `Type` (including the default `""`) is
invalid. Returns `none` for a valid subset, `some e` for the error. -/
def Subset.Validate : Option Subset → Option ValErr
  | none => none
  | some s =>
      if s.type = "PARTITION" then
        match s.count, s.selection with
        | some cnt, some sel =>
            if cnt < 1 then some .countLtOne
            else if sel < 0 ∨ cnt ≤ sel then some (.selectionOutOfRange cnt)
            else if s.proportion.isSome then some .proportionSetForPartition
            else none
        | _, _ => some .partitionFieldsMissing
      else if s.type = "SAMPLE" then
        match s.proportion with
        | some p =>
            if p < 0 ∨ 1 < p then some (.proportionOutOfRange p)
            else if s.count.isSome ∨ s.selection.isSome then
              some .countOrSelectionSetForSample
            else none
        | none => some .proportionMissing
      else some (.invalidSubsetType s.type)

/-- `events.Request`: `Start` and `Offset` are pointers (`Option`); the
`Start` string type is kept as `String` (`"EARLIEST"`/`"LATEST"` are the
named constants). Filters are irrelevant to validation and omitted. -/
structure Request where
  start : Option String
  offset : Option Nat
  subset : Option Subset
  deriving Repr, DecidableEq

/-- `(*Request).Validate`: rejects a request with both `Start` and
`Offset` set, then validates the subset; nothing else is checked (the
`Start` string's value is never inspected). -/
def Request.Validate (r : Request) : Option ValErr :=
  match r.start, r.offset with
  | some _, some _ => some .startAndOffset
  | _, _ => Subset.Validate r.subset

/-- `events.Fetch(c, s, o, filters)`: builds a `Request` (whose `Subset`
field is the zero value `nil`), validates it, and posts it only when
validation passes. The first component records whether `c.Post` was
called; the second is the validation error, if any. -/
def Fetch (s : Option String) (o : Option Nat) : Bool × Option ValErr :=
  let req : Request := { start := s, offset := o, subset := none }
  match req.Validate with
  | some e => (false, some e)
  | none => (true, none)

/-- The state of a Go `chan struct` value as used for `Response.closed`:
the zero value `nil`, an allocated open channel, or a closed channel. -/
inductive ChanState where
  | nilChan
  | openChan
  | closedChan
  deriving Repr, DecidableEq

/-- The errors of `newResponse` in `events/response.go`: `LimitExceeded`
for HTTP 402, or the formatted "unexpected non-200 response: %d" error
carrying the status code. -/
inductive FetchErr where
  | limitExceeded
  | unexpectedStatus (code : Nat)
  deriving Repr, DecidableEq

/-- The `events.Response` stream handle, reduced to the state touched by
`Close`: the `closed` channel and whether the body reader has been
closed. -/
structure Response where
  closed : ChanState
  bodyClosed : Bool
  deriving Repr, DecidableEq

/-- `newResponse(resp)`: 402 ⇒ `LimitExceeded`; any other non-200 ⇒ the
"unexpected non-200 response" error; 200 ⇒ a fresh `Response`. The struct
literal in the source initializes `out`, `body` and `mu` but not
`closed`, so `closed` keeps its zero value, the `nil` channel. -/
def newResponse (statusCode : Nat) : Except FetchErr Response :=
  if statusCode = 402 then .error .limitExceeded
  else if statusCode ≠ 200 then .error (.unexpectedStatus statusCode)
  else .ok { closed := ChanState.nilChan, bodyClosed := false }

/-- The result of one `(*Response).Close` call: either it returns with the
new state, or the goroutine panics (with the state at the panic). -/
inductive CloseResult where
  | returned (r : Response)
  | panicked (r : Response)
  deriving Repr, DecidableEq

/-- `(*Response).Close`: under the mutex, a `select` with a `default`
branch receives from `r.closed`. Receiving succeeds only on a closed
channel (then Close returns at once); otherwise the `default` branch
closes the body and then runs `close(r.closed)` — which panics when
`r.closed` is the `nil` zero value. -/
def Response.Close (r : Response) : CloseResult :=
  match r.closed with
  | .closedChan => .returned r
  | .openChan => .returned { closed := .closedChan, bodyClosed := true }
  | .nilChan => .panicked { r with bodyClosed := true }

/-- JSON string escaping as done by `encoding/json` for quote and
backslash (Go additionally escapes control and HTML characters, which
none of the fixed keys contain). -/
def jsonEscape (s : String) : String :=
  String.mk ((s.toList.map fun c =>
    if c = '"' ∨ c = '\\' then ['\\', c] else [c]).flatten)

def jsonString (s : String) : String := "\"" ++ jsonEscape s ++ "\""

def jsonArray (xs : List String) : String :=
  "[" ++ String.intercalate "," xs ++ "]"

def jsonObject (fields : List String) : String :=
  "\x7b" ++ String.intercalate "," fields ++ "\x7d"

/-- `events.Push` as serialized inside a `Filter`'s `notification` field:
`push_id` and `group_id`, neither marked `omitempty`. -/
structure Push where
  pushID : String
  groupID : String
  deriving Repr, DecidableEq

def marshalPush (p : Push) : String :=
  jsonObject ["\"push_id\":" ++ jsonString p.pushID,
              "\"group_id\":" ++ jsonString p.groupID]

/-- `events.Filter`. `Type` and `DeviceType` are string types; `Device` is
not among the provided sources — modelled from the spec: a device
identifier (§3, "`devices` (sequence of device identifiers)"), serialized
as a JSON string. `Latency` is an `int64` with the `omitempty` tag. -/
structure Filter where
  types : List String
  deviceTypes : List String
  notification : List Push
  devices : List String
  latency : Int
  deriving Repr, DecidableEq

/-- `json.Marshal` of a `Filter`: fields in struct order, each with
`omitempty`, so empty slices and a zero `Latency` are omitted. -/
def marshalFilter (f : Filter) : String :=
  jsonObject (List.filterMap id
    [ if f.types = [] then none
      else some ("\"type\":" ++ jsonArray (f.types.map jsonString)),
      if f.deviceTypes = [] then none
      else some ("\"device_types\":" ++ jsonArray (f.deviceTypes.map jsonString)),
      if f.notification = [] then none
      else some ("\"notification\":" ++ jsonArray (f.notification.map marshalPush)),
      if f.devices = [] then none
      else some ("\"devices\":" ++ jsonArray (f.devices.map jsonString)),
      if f.latency = 0 then none
      else some ("\"latency\":" ++ toString f.latency) ])

/-- The wire form of a filter carrying no latency field at all: the same
marshalling with the `Latency` field absent from the struct. Stated from
the claim's words, for comparison with `marshalFilter`. -/
def marshalFilterSansLatency (f : Filter) : String :=
  jsonObject (List.filterMap id
    [ if f.types = [] then none
      else some ("\"type\":" ++ jsonArray (f.types.map jsonString)),
      if f.deviceTypes = [] then none
      else some ("\"device_types\":" ++ jsonArray (f.deviceTypes.map jsonString)),
      if f.notification = [] then none
      else some ("\"notification\":" ++ jsonArray (f.notification.map marshalPush)),
      if f.devices = [] then none
      else some ("\"devices\":" ++ jsonArray (f.devices.map jsonString)) ])

/-- The rendered present fields of a `Filter` other than latency, for
stating where the latency field lands in the output. -/
def filterFieldsSansLatency (f : Filter) : List String :=
  List.filterMap id
    [ if f.types = [] then none
      else some ("\"type\":" ++ jsonArray (f.types.map jsonString)),
      if f.deviceTypes = [] then none
      else some ("\"device_types\":" ++ jsonArray (f.deviceTypes.map jsonString)),
      if f.notification = [] then none
      else some ("\"notification\":" ++ jsonArray (f.notification.map marshalPush)),
      if f.devices = [] then none
      else some ("\"devices\":" ++ jsonArray (f.devices.map jsonString)) ]

end Events

namespace Gobyairship

/-- C1: if the initial POST and every subsequent request receive a 307
response, `Client.Post` issues exactly 10 redirect requests after the
initial one (11 requests in total, the first built by `newRequest` on the
full URL and each later one a `redirectReq`), drains and closes all 11
response bodies — the final 307 body included — and returns a nil
response with `ErrTooManyRedirects`. The body `b` is arbitrary, covering
both a `nil` body (`b = ""`) and a non-empty JSON value such as `{}`. -/
theorem post_redirect_exhaustion (c : Client) (u b : String)
    (env : Nat → Option Resp) (f : Nat → Resp)
    (henv : ∀ i, env i = some (f i)) (hf : ∀ i, (f i).status = 307) :
    Client.Post c u b env =
      { result := .err .tooManyRedirects,
        reqs := c.newRequest "POST" (c.baseURL ++ "/" ++ u ++ "/") b ::
          [f 0, f 1, f 2, f 3, f 4, f 5, f 6, f 7, f 8, f 9].map
            (redirectReq c (c.baseURL ++ "/" ++ u ++ "/") b),
        drained := [f 0, f 1, f 2, f 3, f 4, f 5, f 6, f 7, f 8, f 9, f 10] } := by
  simp [Client.Post, postLoop, henv 0, henv 1, henv 2, henv 3, henv 4, henv 5,
        henv 6, henv 7, henv 8, henv 9, henv 10, hf 0, hf 1, hf 2, hf 3, hf 4,
        hf 5, hf 6, hf 7, hf 8, hf 9, hf 10]

/-- Witness for C1: a server that always answers 307 with no headers. -/
theorem post_redirect_exhaustion_witness :
    (Client.Post ⟨"http://b", "k", "s"⟩ "events" "\x7b\x7d"
        (fun _ => some ⟨307, "", ""⟩)).result = .err .tooManyRedirects := by
  rw [post_redirect_exhaustion ⟨"http://b", "k", "s"⟩ "events" "\x7b\x7d" _
        (fun _ => ⟨307, "", ""⟩) (fun _ => rfl) (fun _ => rfl)]

end Gobyairship

namespace Gobyairship

/-- The loop issues no request once the fuel is exhausted. -/
theorem postLoop_reqs_zero (c : Client) (u b : String) (env : Nat → Option Resp)
    (idx : Nat) (r : Resp) : (postLoop c u b env 0 idx r).reqs = [] := rfl

/-- On a 307 with a delivered next response, the loop's requests are the
redirect request for `r` followed by the requests of the rest of the run. -/
theorem postLoop_reqs_succ (c : Client) (u b : String) (env : Nat → Option Resp)
    (n idx : Nat) (r r2 : Resp) (h307 : r.status = 307)
    (hi : env idx = some r2) :
    (postLoop c u b env (n + 1) idx r).reqs =
      redirectReq c u b r :: (postLoop c u b env n (idx + 1) r2).reqs := by
  simp [postLoop, h307, hi]

/-- On a 307 whose follow-up `Do` fails, the redirect request was still
the one issued. -/
theorem postLoop_reqs_succ_err (c : Client) (u b : String)
    (env : Nat → Option Resp) (n idx : Nat) (r : Resp) (h307 : r.status = 307)
    (hi : env idx = none) :
    (postLoop c u b env (n + 1) idx r).reqs = [redirectReq c u b r] := by
  simp [postLoop, h307, hi]

/-- On a non-307 the loop exits without issuing a request. -/
theorem postLoop_reqs_not307 (c : Client) (u b : String)
    (env : Nat → Option Resp) (n idx : Nat) (r : Resp)
    (h : ¬ r.status = 307) :
    (postLoop c u b env (n + 1) idx r).reqs = [] := by
  simp [postLoop, h]

/-- The `j`-th request the loop issues (entered at response `r`, with
`env` delivering `f i` to the `i`-th `Do` call) is the redirect request
built from the response immediately before it. -/
theorem postLoop_reqs_index (c : Client) (u b : String) (env : Nat → Option Resp)
    (f : Nat → Resp) (henv : ∀ i, env i = some (f i)) :
    ∀ fuel idx r j q, (postLoop c u b env fuel idx r).reqs[j]? = some q →
      q = redirectReq c u b (if j = 0 then r else f (idx + j - 1)) := by
  intro fuel
  induction fuel with
  | zero => intro idx r j q hq; rw [postLoop_reqs_zero] at hq; simp at hq
  | succ n ih =>
      intro idx r j q hq
      by_cases h307 : r.status = 307
      · rw [postLoop_reqs_succ c u b env n idx r (f idx) h307 (henv idx)] at hq
        cases j with
        | zero => simp at hq; simp [hq.symm]
        | succ j' =>
            rw [List.getElem?_cons_succ] at hq
            have := ih (idx + 1) (f idx) j' q hq
            rw [this]
            cases j' with
            | zero => simp
            | succ k =>
                have harith : idx + 1 + (k + 1) - 1 = idx + (k + 1 + 1) - 1 := by
                  omega
                simp [harith]
      · rw [postLoop_reqs_not307 c u b env n idx r h307] at hq; simp at hq

/-- Every request of a `Post` call: the initial one on the full URL, then
the loop's requests. -/
theorem post_reqs_shape (c : Client) (u b : String) (env : Nat → Option Resp)
    (r0 : Resp) (henv0 : env 0 = some r0) :
    (Client.Post c u b env).reqs =
      c.newRequest "POST" (c.baseURL ++ "/" ++ u ++ "/") b ::
        (postLoop c (c.baseURL ++ "/" ++ u ++ "/") b env 10 1 r0).reqs := by
  simp [Client.Post, henv0]

/-- The first request of every `Post` call is `newRequest` on the full
URL — in particular it carries no `Cookie` header, whatever earlier calls
saw. -/
theorem post_reqs_head (c : Client) (u b : String) (env : Nat → Option Resp) :
    (Client.Post c u b env).reqs[0]? =
      some (c.newRequest "POST" (c.baseURL ++ "/" ++ u ++ "/") b) := by
  cases h : env 0 <;> simp [Client.Post, h]

/-- The `j+1`-st request of a `Post` call is the redirect request built
from the `j`-th response. -/
theorem post_reqs_index (c : Client) (u b : String) (env : Nat → Option Resp)
    (f : Nat → Resp) (henv : ∀ i, env i = some (f i)) (j : Nat) (q : Req)
    (hq : (Client.Post c u b env).reqs[j + 1]? = some q) :
    q = redirectReq c (c.baseURL ++ "/" ++ u ++ "/") b (f j) := by
  rw [post_reqs_shape c u b env (f 0) (henv 0), List.getElem?_cons_succ] at hq
  have := postLoop_reqs_index c (c.baseURL ++ "/" ++ u ++ "/") b env f henv
    10 1 (f 0) j q hq
  rw [this]
  cases j with
  | zero => simp
  | succ k =>
      have harith : 1 + (k + 1) - 1 = k + 1 := by omega
      simp [harith]

end Gobyairship

namespace Gobyairship

/-- C2: inside `Client.Post`'s redirect loop, when `env` delivers `f i`
to the `i`-th request, the `j+1`-st request's `Cookie` header is exactly
the raw `Set-Cookie` value of the immediately preceding response `f j`
when that value is non-empty, and absent when it is empty — a single
`Option` slot, never an accumulation of earlier values. The first request
of every call carries no `Cookie` header at all (`Post` is a function of
its arguments only, so no cookie survives into a later call). -/
theorem post_cookie_echo (c : Client) (u b : String) (env : Nat → Option Resp)
    (f : Nat → Resp) (henv : ∀ i, env i = some (f i)) :
    (∀ q, (Client.Post c u b env).reqs[0]? = some q → q.cookie = none) ∧
    (∀ j q, (Client.Post c u b env).reqs[j + 1]? = some q →
        q.cookie = if (f j).setCookie = "" then none
                   else some (f j).setCookie) := by
  constructor
  · intro q hq
    rw [post_reqs_head] at hq
    cases hq
    rfl
  · intro j q hq
    rw [post_reqs_index c u b env f henv j q hq]
    rfl

/-- Witness for C2: the second request of a run whose first response set
`Set-Cookie: c1` carries `Cookie: c1`. -/
theorem post_cookie_echo_witness :
    (redirectReq ⟨"http://b", "k", "s"⟩ "http://b/events/" ""
        ⟨307, "", "c1"⟩).cookie = some "c1" := by
  have h := (post_cookie_echo ⟨"http://b", "k", "s"⟩ "events" ""
      (fun _ => some ⟨307, "", "c1"⟩) (fun _ => ⟨307, "", "c1"⟩)
      (fun _ => rfl)).2 0
      (redirectReq ⟨"http://b", "k", "s"⟩ "http://b/events/" "" ⟨307, "", "c1"⟩)
      (by decide)
  simpa using h

/-- Counterexample to C5 as stated: with base URL `http://b` and path
`p`, a first 307 carrying `Location: /foo` sends the second request to
`http://b/foo`; when the second 307 carries no `Location`, the third
request goes back to the ORIGINAL full URL `http://b/p/` — not to the
previous request's URL `http://b/foo` as the claim asserts. -/
theorem post_locationless_counterexample :
    (Client.Post ⟨"http://b", "", ""⟩ "p" ""
        (fun i => some (if i = 0 then ⟨307, "/foo", ""⟩
                        else if i = 1 then ⟨307, "", ""⟩
                        else ⟨200, "", ""⟩))).reqs.map Req.url =
      ["http://b/p/", "http://b/foo", "http://b/p/"] ∧
    ("http://b/p/" : String) ≠ "http://b/foo" := by
  exact ⟨by decide, by decide⟩

/-- C5 (amended): for every 307 response `f j` seen inside the loop, the
next request's URL is: the original full URL `baseURL + "/" + path + "/"`
when `Location` is absent; the `Location` value wholesale when it starts
with `"http"`; and `baseURL` concatenated with the `Location` value
otherwise. -/
theorem post_location_resolution (c : Client) (u b : String)
    (env : Nat → Option Resp) (f : Nat → Resp)
    (henv : ∀ i, env i = some (f i)) (j : Nat) (q : Req)
    (hq : (Client.Post c u b env).reqs[j + 1]? = some q) :
    q.url = if (f j).location = "" then c.baseURL ++ "/" ++ u ++ "/"
            else if strStartsWith (f j).location "http" then (f j).location
            else c.baseURL ++ (f j).location := by
  rw [post_reqs_index c u b env f henv j q hq]
  rfl

/-- Witness for C5 (amended): a relative `Location: /foo` resolves to
`http://b/foo`. -/
theorem post_location_resolution_witness :
    (redirectReq ⟨"http://b", "k", "s"⟩ "http://b/p/" ""
        ⟨307, "/foo", ""⟩).url = "http://b/foo" := by
  have h := post_location_resolution ⟨"http://b", "k", "s"⟩ "p" ""
      (fun _ => some ⟨307, "/foo", ""⟩) (fun _ => ⟨307, "/foo", ""⟩)
      (fun _ => rfl) 0
      (redirectReq ⟨"http://b", "k", "s"⟩ "http://b/p/" "" ⟨307, "/foo", ""⟩)
      (by decide)
  rw [h]
  decide

end Gobyairship

namespace Gobyairship

/-- Every request the redirect loop issues is a `redirectReq` for some
response. -/
theorem postLoop_reqs_mem (c : Client) (u b : String) (env : Nat → Option Resp) :
    ∀ fuel idx r q, q ∈ (postLoop c u b env fuel idx r).reqs →
      ∃ r2, q = redirectReq c u b r2 := by
  intro fuel
  induction fuel with
  | zero => intro idx r q hq; rw [postLoop_reqs_zero] at hq; simp at hq
  | succ n ih =>
      intro idx r q hq
      by_cases h307 : r.status = 307
      · cases hi : env idx with
        | none =>
            rw [postLoop_reqs_succ_err c u b env n idx r h307 hi] at hq
            simp at hq
            exact ⟨r, hq⟩
        | some r2 =>
            rw [postLoop_reqs_succ c u b env n idx r r2 h307 hi] at hq
            rcases List.mem_cons.mp hq with h | h
            · exact ⟨r, h⟩
            · exact ih (idx + 1) r2 q h
      · rw [postLoop_reqs_not307 c u b env n idx r h307] at hq; simp at hq

/-- Every request of a `Post` call is either the initial `newRequest` or
a `redirectReq` — in both cases `newRequest`'s headers with at most
`url`/`cookie` changed. -/
theorem post_reqs_mem (c : Client) (u b : String) (env : Nat → Option Resp)
    (q : Req) (hq : q ∈ (Client.Post c u b env).reqs) :
    q = c.newRequest "POST" (c.baseURL ++ "/" ++ u ++ "/") b ∨
      ∃ r2, q = redirectReq c (c.baseURL ++ "/" ++ u ++ "/") b r2 := by
  cases h0 : env 0 with
  | none =>
      simp [Client.Post, h0] at hq
      exact Or.inl hq
  | some r0 =>
      rw [post_reqs_shape c u b env r0 h0] at hq
      rcases List.mem_cons.mp hq with h | h
      · exact Or.inl h
      · exact Or.inr (postLoop_reqs_mem c (c.baseURL ++ "/" ++ u ++ "/") b env
          10 1 r0 q h)

/-- C7: every request `Client.Post` sends over the wire (i.e. after Go's
`net/http` transport adds its `Accept-Encoding`) carries
`Authorization: Basic base64(key ":" secret)`, the fixed vendor `Accept`
header, and `Accept-Encoding: gzip`; its body is the marshalled `buf`
exactly when that is non-empty, and `Content-Type: application/json` is
present exactly when the body is. -/
theorem post_request_headers (c : Client) (u b : String)
    (env : Nat → Option Resp) (q : Req)
    (hq : q ∈ (Client.Post c u b env).reqs) :
    (wireRequest q).authorization =
        "Basic " ++ base64Encode (strBytes (c.key ++ ":" ++ c.secret)) ∧
    (wireRequest q).accept =
        "application/vnd.urbanairship+x-json,application/vnd.urbanairship+x-ndjson;version=3;" ∧
    (wireRequest q).acceptEncoding = some "gzip" ∧
    (wireRequest q).body = (if b = "" then none else some b) ∧
    ((wireRequest q).contentType = some "application/json" ↔
      (wireRequest q).body ≠ none) := by
  have hform := post_reqs_mem c u b env q hq
  have hfields : q.authorization = c.basicAuth ∧ q.accept = acceptHeader ∧
      q.acceptEncoding = none ∧ q.body = (if b = "" then none else some b) ∧
      q.contentType = (if b = "" then none else some "application/json") := by
    rcases hform with h | ⟨r2, h⟩ <;>
      simp [h, redirectReq, Client.newRequest]
  rcases hfields with ⟨h1, h2, h3, h4, h5⟩
  have hw : wireRequest q = { q with acceptEncoding := some "gzip" } := by
    simp [wireRequest, h3]
  rw [hw]
  refine ⟨h1, h2, rfl, h4, ?_⟩
  by_cases hb : b = "" <;> simp [h4, h5, hb, Client.basicAuth, acceptHeader]

/-- Witness for C7: the initial request of a concrete `Post` with a
non-empty body. -/
theorem post_request_headers_witness :
    (wireRequest (Client.newRequest ⟨"http://b", "k", "s"⟩ "POST"
        "http://b/events/" "x")).acceptEncoding = some "gzip" :=
  (post_request_headers ⟨"http://b", "k", "s"⟩ "events" "x"
    (fun _ => some ⟨200, "", ""⟩)
    (Client.newRequest ⟨"http://b", "k", "s"⟩ "POST" "http://b/events/" "x")
    (by decide)).2.2.1

end Gobyairship

namespace Events

/-- C6: `newResponse` maps HTTP status 200 to a fresh (non-nil) stream
handle with nil error, 402 to the distinguished `LimitExceeded`
rate-limit error with nil handle, and every other status to the generic
"unexpected non-200 response" error carrying that integer status, again
with nil handle. -/
theorem newResponse_status_mapping (code : Nat) :
    (code = 402 → newResponse code = .error .limitExceeded) ∧
    (code ≠ 402 → code ≠ 200 →
        newResponse code = .error (.unexpectedStatus code)) ∧
    (code = 200 →
        newResponse code =
          .ok { closed := ChanState.nilChan, bodyClosed := false }) := by
  refine ⟨fun h => ?_, fun h1 h2 => ?_, fun h => ?_⟩ <;>
    simp [newResponse, *]

/-- Witness for C6: statuses 402, 404 and 200. -/
theorem newResponse_status_mapping_witness :
    newResponse 402 = .error .limitExceeded ∧
    newResponse 404 = .error (.unexpectedStatus 404) ∧
    newResponse 200 = .ok { closed := ChanState.nilChan, bodyClosed := false } :=
  ⟨(newResponse_status_mapping 402).1 rfl,
   (newResponse_status_mapping 404).2.1 (by decide) (by decide),
   (newResponse_status_mapping 200).2.2 rfl⟩

/-- C3 is false of the code: `newResponse`'s struct literal never
initializes the `closed` channel, so it keeps its zero value `nil`. The
very first `Close` call then takes the `select`'s `default` branch
(receiving from a nil channel is never ready), closes the body, and runs
`close(r.closed)` on a nil channel — a runtime panic. This contradicts
the claim (and the in-repo `TestClose`, which calls `Close` twice and
expects both calls to return): no call of `Close` on a `newResponse`
handle returns normally, let alone idempotently. -/
theorem response_close_panics :
    newResponse 200 = .ok { closed := ChanState.nilChan, bodyClosed := false } ∧
    Response.Close { closed := ChanState.nilChan, bodyClosed := false } =
      .panicked { closed := ChanState.nilChan, bodyClosed := true } :=
  ⟨rfl, rfl⟩

/-- Counterexample to C4 as stated: a `Request` whose `Start` is the
unrecognized string `"BOGUS"` (offset absent) passes validation and
`Fetch` calls `Post`; so does a request with both `start` and `offset`
absent. The claim's "unknown start string ⇒ validation error" and "both
absent ⇒ validation error" do not hold. -/
theorem fetch_validation_counterexample :
    Fetch (some "BOGUS") none = (true, none) ∧
    Fetch none none = (true, none) :=
  ⟨rfl, rfl⟩

/-- C4 (amended): validation runs before any network call, and for the
requests `Fetch` builds (whose `Subset` is always nil) it rejects exactly
the combination where both `start` and `offset` are present; the `start`
string's value is never inspected, so any string — recognized or not —
with `offset` absent is accepted, as is the combination with both absent.
`Post` is called if and only if validation passes. -/
theorem fetch_validation (s : Option String) (o : Option Nat) :
    Fetch s o = if s.isSome && o.isSome then (false, some .startAndOffset)
                else (true, none) := by
  cases s <;> cases o <;> rfl

end Events

namespace Events

/-- C8: subset validation boundaries. A `PARTITION` subset (as built by
`SubsetPartition`, with proportion unset) is rejected when `count < 1`,
`selection < 0`, or `selection ≥ count`, and accepted at both boundaries
`selection = 0` and `selection = count - 1`; a `SAMPLE` subset (count and
selection unset) is accepted for every proportion in `[0, 1]`, endpoints
included, and rejected outside; an empty default-constructed subset is
rejected. -/
theorem subset_validate_boundaries :
    (∀ cnt sel : Int, cnt < 1 →
        Subset.Validate (SubsetPartition cnt sel) ≠ none) ∧
    (∀ cnt sel : Int, sel < 0 →
        Subset.Validate (SubsetPartition cnt sel) ≠ none) ∧
    (∀ cnt sel : Int, cnt ≤ sel →
        Subset.Validate (SubsetPartition cnt sel) ≠ none) ∧
    (∀ cnt : Int, 1 ≤ cnt →
        Subset.Validate (SubsetPartition cnt 0) = none) ∧
    (∀ cnt : Int, 1 ≤ cnt →
        Subset.Validate (SubsetPartition cnt (cnt - 1)) = none) ∧
    (∀ p : ℚ, 0 ≤ p → p ≤ 1 → Subset.Validate (SubsetSample p) = none) ∧
    (∀ p : ℚ, p < 0 ∨ 1 < p → Subset.Validate (SubsetSample p) ≠ none) ∧
    Subset.Validate (some { type := "", proportion := none, count := none,
                            selection := none }) ≠ none := by
  refine ⟨?_, ?_, ?_, ?_, ?_, ?_, ?_, ?_⟩
  · intro cnt sel h
    simp only [Subset.Validate, SubsetPartition]
    split_ifs <;> simp_all
  · intro cnt sel h
    simp only [Subset.Validate, SubsetPartition]
    split_ifs <;> simp_all
  · intro cnt sel h
    simp only [Subset.Validate, SubsetPartition]
    split_ifs <;> simp_all
  · intro cnt h
    simp only [Subset.Validate, SubsetPartition]
    have h1 : ¬(cnt < 1) := by omega
    have h2 : ¬((0 : Int) < 0 ∨ cnt ≤ 0) := by omega
    simp [h1, h2]
    all_goals omega
  · intro cnt h
    simp only [Subset.Validate, SubsetPartition]
    have h1 : ¬(cnt < 1) := by omega
    have h2 : ¬(cnt - 1 < 0 ∨ cnt ≤ cnt - 1) := by omega
    simp [h1, h2]
  · intro p h0 h1
    have hno : ¬(p < 0 ∨ 1 < p) := by push_neg; exact ⟨h0, h1⟩
    simp [Subset.Validate, SubsetSample, hno]
  · intro p h
    simp only [Subset.Validate, SubsetSample]
    rw [if_neg (by decide : ¬("SAMPLE" : String) = "PARTITION")]
    simp only [if_true]
    rw [if_pos h]
    simp
  · decide

/-- Witness for C8: concrete boundary inputs at `count = 5`. -/
theorem subset_validate_boundaries_witness :
    Subset.Validate (SubsetPartition 0 0) ≠ none ∧
    Subset.Validate (SubsetPartition 5 (-1)) ≠ none ∧
    Subset.Validate (SubsetPartition 5 5) ≠ none ∧
    Subset.Validate (SubsetPartition 5 0) = none ∧
    Subset.Validate (SubsetPartition 5 4) = none ∧
    Subset.Validate (SubsetSample 0) = none ∧
    Subset.Validate (SubsetSample 1) = none ∧
    Subset.Validate (SubsetSample 2) ≠ none :=
  ⟨subset_validate_boundaries.1 0 0 (by norm_num),
   subset_validate_boundaries.2.1 5 (-1) (by norm_num),
   subset_validate_boundaries.2.2.1 5 5 (by norm_num),
   subset_validate_boundaries.2.2.2.1 5 (by norm_num),
   by
     have h := subset_validate_boundaries.2.2.2.2.1 5 (by norm_num)
     norm_num at h
     exact h,
   subset_validate_boundaries.2.2.2.2.2.1 0 (by norm_num) (by norm_num),
   subset_validate_boundaries.2.2.2.2.2.1 1 (by norm_num) (by norm_num),
   subset_validate_boundaries.2.2.2.2.2.2.1 2 (by norm_num)⟩

end Events

namespace Events

/-- C9: `Subset.Validate` on the `nil` pointer returns `nil` — an absent
subset is explicitly valid — so every `Request` whose `Subset` field is
absent passes the subset portion of validation; and at the public `Fetch`
interface (which always builds its `Request` with a nil `Subset`) the
only possible validation error is the start/offset conflict, never a
subset error. -/
theorem nil_subset_valid :
    Subset.Validate none = none ∧
    (∀ r : Request, r.subset = none → Subset.Validate r.subset = none) ∧
    (∀ s : Option String, ∀ o : Option Nat,
        (Fetch s o).2 = none ∨ (Fetch s o).2 = some .startAndOffset) := by
  refine ⟨rfl, fun r h => by rw [h]; rfl, fun s o => ?_⟩
  · cases s <;> cases o <;> simp [Fetch, Request.Validate, Subset.Validate]

/-- Witness for C9: a request with `Start` set and no subset. -/
theorem nil_subset_valid_witness :
    Subset.Validate (Request.mk (some "EARLIEST") none none).subset = none :=
  nil_subset_valid.2.1 ⟨some "EARLIEST", none, none⟩ rfl

/-- C10: with `Latency = 0` the serialized `Filter` omits the `latency`
key entirely (`omitempty` on an integer), producing exactly the bytes of
a filter that has no latency field at all; with any non-zero `Latency` —
negative values included — the pair `"latency":<value>` is emitted
verbatim as the final member of the JSON object. -/
theorem filter_latency_omitempty :
    (∀ f : Filter, f.latency = 0 →
        marshalFilter f = marshalFilterSansLatency f) ∧
    (∀ f : Filter, f.latency ≠ 0 →
        marshalFilter f =
          jsonObject (filterFieldsSansLatency f ++
            ["\"latency\":" ++ toString f.latency])) := by
  constructor
  · intro f h
    simp only [marshalFilter, marshalFilterSansLatency, h]
    split_ifs <;> simp [List.filterMap]
  · intro f h
    simp only [marshalFilter, filterFieldsSansLatency, if_neg h]
    split_ifs <;> simp [List.filterMap]

/-- Witness for C10: a one-type filter at latency `0` and at `-5`. -/
theorem filter_latency_omitempty_witness :
    marshalFilter ⟨["OPEN"], [], [], [], 0⟩ =
      marshalFilterSansLatency ⟨["OPEN"], [], [], [], 0⟩ ∧
    marshalFilter ⟨["OPEN"], [], [], [], -5⟩ =
      jsonObject (filterFieldsSansLatency ⟨["OPEN"], [], [], [], -5⟩ ++
        ["\"latency\":" ++ toString (-5 : Int)]) :=
  ⟨filter_latency_omitempty.1 ⟨["OPEN"], [], [], [], 0⟩ rfl,
   filter_latency_omitempty.2 ⟨["OPEN"], [], [], [], -5⟩ (by norm_num)⟩

end Events
